import Mathlib

/-!
# bonefish: the message dispatcher `wamp_message_processor::process_message`

A shallow embedding of `src/bonefish/common/wamp_message_processor.cpp`.

`process_message` is a `void` function made only of calls on its collaborators
(the router registry, the resolved router, the session id generator, the
transport and the connection context).  The embedding therefore returns the
connection context and the registry as they are after the call, together with
the ordered list of collaborator calls the function made (its trace).

The collaborators' own sources (`wamp_router`, `wamp_routers`,
`wamp_connection_base`, `wamp_session_id_generator`, `wamp_hello_details`,
`wamp_message_type`) are not part of the given files; what is needed of them is
modelled from the specification and marked as such.  The headers
`wamp_session.hpp` and `wamp_hello_message.hpp` that are given declare an earlier
interface (a two-argument session constructor, `get_roles` on the hello message)
than the one `process_message` calls (a three-argument constructor followed by
`set_roles`, and `get_details`); the embedding follows the calls `process_message`
makes and takes `get_realm` from the header.
-/

namespace bonefish

/-! ## Data model -/

/-- A realm name (`wamp_uri`, a `std::string`). -/
abbrev wamp_uri := String

/-- A session identifier (`wamp_session_id`, an unsigned integer). -/
abbrev wamp_session_id := Nat

/-- The identity of a transport handle (`std::unique_ptr<wamp_transport>`). -/
abbrev wamp_transport := Nat

/-- The serialized details dictionary carried by a hello message. -/
abbrev msgpack_object := List Nat

/-- Modelled from the spec: `wamp_message_type.hpp` is not among the sources.
The twelve types named by the `switch` of `process_message`, and the remaining
message kinds of the message taxonomy (spec section 6), which reach `default`. -/
inductive wamp_message_type where
  | ABORT
  | AUTHENTICATE
  | CALL
  | CANCEL
  | ERROR
  | EVENT
  | GOODBYE
  | HELLO
  | INVOCATION
  | PUBLISH
  | PUBLISHED
  | REGISTER
  | REGISTERED
  | RESULT
  | SUBSCRIBE
  | SUBSCRIBED
  | UNREGISTER
  | UNREGISTERED
  | UNSUBSCRIBE
  | UNSUBSCRIBED
  | WELCOME
  | YIELD
  deriving DecidableEq, Repr

/-- Modelled from the spec: `wamp_role.hpp` is not among the sources.  The
capabilities a session may declare (spec section 3). -/
inductive wamp_role where
  | callee
  | caller
  | publisher
  | subscriber
  deriving DecidableEq, Repr

/-- A decoded message as `process_message` sees it through
`std::unique_ptr<wamp_message>`: its type tag (`get_type`), the two fields the
`static_cast` to `wamp_hello_message` reads (`get_realm`, `get_details`), and
the remaining fields, which the dispatcher never inspects. -/
structure wamp_message where
  type : wamp_message_type
  m_realm : wamp_uri
  m_details : msgpack_object
  m_fields : List Nat
  deriving DecidableEq, Repr

/-- The accessor `wamp_hello_message::get_realm`. -/
def wamp_message.get_realm (m : wamp_message) : wamp_uri := m.m_realm

/-- The accessor `wamp_hello_message::get_details` used by `process_message`. -/
def wamp_message.get_details (m : wamp_message) : msgpack_object := m.m_details

/-- The abort message: only its reason is set by the dispatcher. -/
structure wamp_abort_message where
  m_reason : String
  deriving DecidableEq, Repr

/-- The freshly constructed abort message (`new wamp_abort_message`). -/
def wamp_abort_message.new : wamp_abort_message := ⟨""⟩

/-- The setter `wamp_abort_message::set_reason`. -/
def wamp_abort_message.set_reason (_m : wamp_abort_message) (reason : String) :
    wamp_abort_message := ⟨reason⟩

/-- A session as `process_message` builds it: constructed from an id, a realm
and the transport handle, its roles set afterwards with `set_roles`. -/
structure wamp_session where
  m_session_id : wamp_session_id
  m_realm : wamp_uri
  m_transport : wamp_transport
  m_roles : List wamp_role
  deriving DecidableEq, Repr

/-- The three-argument constructor used by `std::make_shared<wamp_session>`. -/
def wamp_session.make (id : wamp_session_id) (realm : wamp_uri)
    (transport : wamp_transport) : wamp_session :=
  ⟨id, realm, transport, []⟩

/-- The setter `wamp_session::set_roles`. -/
def wamp_session.set_roles (s : wamp_session) (roles : List wamp_role) : wamp_session :=
  { s with m_roles := roles }

/-- Modelled from the spec: `wamp_connection_base` is not among the sources.  The
connection context exposes get/set of the current session id and realm and a
clear operation (spec section 6). -/
structure wamp_connection_base where
  m_realm : wamp_uri
  m_session_id : wamp_session_id
  deriving DecidableEq, Repr

/-- The getter `wamp_connection_base::get_realm`. -/
def wamp_connection_base.get_realm (c : wamp_connection_base) : wamp_uri := c.m_realm

/-- The getter `wamp_connection_base::get_session_id`. -/
def wamp_connection_base.get_session_id (c : wamp_connection_base) : wamp_session_id :=
  c.m_session_id

/-- The setter `wamp_connection_base::set_realm`. -/
def wamp_connection_base.set_realm (c : wamp_connection_base) (realm : wamp_uri) :
    wamp_connection_base :=
  { c with m_realm := realm }

/-- The setter `wamp_connection_base::set_session_id`. -/
def wamp_connection_base.set_session_id (c : wamp_connection_base) (id : wamp_session_id) :
    wamp_connection_base :=
  { c with m_session_id := id }

/-- Modelled from the spec: the connection context before any handshake, with no
realm and no session id set.  The empty realm name and the identifier 0 (protocol
identifiers are strictly positive, spec section 4.3) stand for "not set". -/
def wamp_connection_base.unset : wamp_connection_base := ⟨"", 0⟩

/-- Modelled from the spec: `wamp_connection_base::clear_data` is not among the
sources; it is the clear operation invoked on session termination, after which the
context carries no session id and no realm. -/
def wamp_connection_base.clear_data (_c : wamp_connection_base) : wamp_connection_base :=
  wamp_connection_base.unset

/-- Modelled from the spec: `wamp_router` is not among the sources.  Of a router's
state only the live session table is represented (spec section 3); dealer and
broker state are reached only through the `process_*_message` calls, which are
recorded in the trace. -/
structure wamp_router where
  m_sessions : List wamp_session
  deriving DecidableEq, Repr

/-- Modelled from the spec: `wamp_router::has_session`, the membership check
against the realm's session table (spec section 4.1). -/
def wamp_router.has_session (r : wamp_router) (id : wamp_session_id) : Bool :=
  r.m_sessions.any (fun s => s.m_session_id == id)

/-- Modelled from the spec: `wamp_router::attach_session` adds the session to the
live session table (spec section 4.6). -/
def wamp_router.attach_session (r : wamp_router) (s : wamp_session) : wamp_router :=
  ⟨s :: r.m_sessions⟩

/-- Modelled from the spec: `wamp_router::detach_session` removes the session with
the given id from the live session table (spec section 4.6). -/
def wamp_router.detach_session (r : wamp_router) (id : wamp_session_id) : wamp_router :=
  ⟨r.m_sessions.filter (fun s => s.m_session_id != id)⟩

/-- Modelled from the spec: `wamp_routers` is not among the sources.  The registry
maps a realm name to at most one router (spec section 4.6); a router is shared and
mutated in place, so the registry holds each router's current state. -/
abbrev wamp_routers := wamp_uri → Option wamp_router

/-- Modelled from the spec: `wamp_routers::get_router`, a pure lookup that yields
no router (a null pointer) for an unknown realm. -/
def wamp_routers.get_router (rs : wamp_routers) (realm : wamp_uri) : Option wamp_router :=
  rs realm

/-- The registry after the router resolved for `realm` has been mutated to `r`. -/
def wamp_routers.update (rs : wamp_routers) (realm : wamp_uri) (r : wamp_router) :
    wamp_routers :=
  fun x => if x = realm then some r else rs x

/-- One call made by `process_message` on a collaborator.  A router is named by the
realm it was resolved from. -/
inductive event where
  | get_router (realm : wamp_uri)
  | send_message (transport : wamp_transport) (message : wamp_abort_message)
  | generate (realm : wamp_uri) (id : wamp_session_id)
  | has_session (realm : wamp_uri) (id : wamp_session_id)
  | set_session_id (id : wamp_session_id)
  | set_realm (realm : wamp_uri)
  | clear_data
  | attach_session (realm : wamp_uri) (session : wamp_session)
  | detach_session (realm : wamp_uri) (id : wamp_session_id)
  | process_call_message (realm : wamp_uri) (id : wamp_session_id) (m : wamp_message)
  | process_error_message (realm : wamp_uri) (id : wamp_session_id) (m : wamp_message)
  | process_goodbye_message (realm : wamp_uri) (id : wamp_session_id) (m : wamp_message)
  | process_hello_message (realm : wamp_uri) (id : wamp_session_id) (m : wamp_message)
  | process_publish_message (realm : wamp_uri) (id : wamp_session_id) (m : wamp_message)
  | process_register_message (realm : wamp_uri) (id : wamp_session_id) (m : wamp_message)
  | process_subscribe_message (realm : wamp_uri) (id : wamp_session_id) (m : wamp_message)
  | process_unregister_message (realm : wamp_uri) (id : wamp_session_id) (m : wamp_message)
  | process_unsubscribe_message (realm : wamp_uri) (id : wamp_session_id) (m : wamp_message)
  | process_yield_message (realm : wamp_uri) (id : wamp_session_id) (m : wamp_message)
  deriving DecidableEq, Repr

/-- What a call of `process_message` leaves behind: the connection context, the
registry with the routers' session tables, and the calls made, in order. -/
structure outcome where
  connection : wamp_connection_base
  routers : wamp_routers
  trace : List event

/-! ## The dispatcher -/

/-- The retry loop `do { id = generator->generate(); } while (router->has_session(id));`.
`gen k` is the value returned by the `k`-th call of `generate`.  The loop has no
bound in the source; `fuel` bounds the number of iterations and `none` means the
loop is still running when the fuel is spent. -/
def generate_session_id (gen : Nat → wamp_session_id) (realm : wamp_uri)
    (router : wamp_router) : Nat → Nat → Option (wamp_session_id × List event)
  | 0, _ => none
  | fuel + 1, k =>
    let id := gen k
    if router.has_session id then
      match generate_session_id gen realm router fuel (k + 1) with
      | none => none
      | some (id', evs) =>
        some (id', event.generate realm id :: event.has_session realm id :: evs)
    else
      some (id, [event.generate realm id, event.has_session realm id])

/-- The function `wamp_message_processor::process_message`.  `unmarshal` stands for
`wamp_hello_details::unmarshal` followed by `get_roles`; `gen` is the output
sequence of the resolved router's session id generator during this call. -/
def process_message (gen : Nat → wamp_session_id)
    (unmarshal : msgpack_object → List wamp_role) (fuel : Nat)
    (m_routers : wamp_routers) (message : wamp_message) (transport : wamp_transport)
    (connection : wamp_connection_base) : Option outcome :=
  match message.type with
  | .AUTHENTICATE => some ⟨connection, m_routers, []⟩
  | .CALL =>
    match m_routers.get_router connection.get_realm with
    | some _ =>
      some ⟨connection, m_routers,
        [event.get_router connection.get_realm,
         event.process_call_message connection.get_realm connection.get_session_id message]⟩
    | none => some ⟨connection, m_routers, [event.get_router connection.get_realm]⟩
  | .CANCEL => some ⟨connection, m_routers, []⟩
  | .ERROR =>
    match m_routers.get_router connection.get_realm with
    | some _ =>
      some ⟨connection, m_routers,
        [event.get_router connection.get_realm,
         event.process_error_message connection.get_realm connection.get_session_id message]⟩
    | none => some ⟨connection, m_routers, [event.get_router connection.get_realm]⟩
  | .GOODBYE =>
    match m_routers.get_router connection.get_realm with
    | some router =>
      some ⟨connection.clear_data,
        m_routers.update connection.get_realm
          (router.detach_session connection.get_session_id),
        [event.get_router connection.get_realm,
         event.process_goodbye_message connection.get_realm connection.get_session_id message,
         event.detach_session connection.get_realm connection.get_session_id,
         event.clear_data]⟩
    | none =>
      some ⟨connection.clear_data, m_routers,
        [event.get_router connection.get_realm, event.clear_data]⟩
  | .HELLO =>
    match m_routers.get_router message.get_realm with
    | none =>
      some ⟨connection, m_routers,
        [event.get_router message.get_realm,
         event.send_message transport
           (wamp_abort_message.new.set_reason "wamp.error.no_such_realm")]⟩
    | some router =>
      match generate_session_id gen message.get_realm router fuel 0 with
      | none => none
      | some (id, loop) =>
        let session :=
          (wamp_session.make id message.get_realm transport).set_roles
            (unmarshal message.get_details)
        some ⟨(connection.set_session_id id).set_realm message.get_realm,
          m_routers.update message.get_realm (router.attach_session session),
          event.get_router message.get_realm :: loop ++
            [event.set_session_id id,
             event.set_realm message.get_realm,
             event.attach_session message.get_realm session,
             event.process_hello_message message.get_realm id message]⟩
  | .PUBLISH =>
    match m_routers.get_router connection.get_realm with
    | some _ =>
      some ⟨connection, m_routers,
        [event.get_router connection.get_realm,
         event.process_publish_message connection.get_realm connection.get_session_id message]⟩
    | none => some ⟨connection, m_routers, [event.get_router connection.get_realm]⟩
  | .REGISTER =>
    match m_routers.get_router connection.get_realm with
    | some _ =>
      some ⟨connection, m_routers,
        [event.get_router connection.get_realm,
         event.process_register_message connection.get_realm connection.get_session_id message]⟩
    | none => some ⟨connection, m_routers, [event.get_router connection.get_realm]⟩
  | .SUBSCRIBE =>
    match m_routers.get_router connection.get_realm with
    | some _ =>
      some ⟨connection, m_routers,
        [event.get_router connection.get_realm,
         event.process_subscribe_message connection.get_realm connection.get_session_id message]⟩
    | none => some ⟨connection, m_routers, [event.get_router connection.get_realm]⟩
  | .UNREGISTER =>
    match m_routers.get_router connection.get_realm with
    | some _ =>
      some ⟨connection, m_routers,
        [event.get_router connection.get_realm,
         event.process_unregister_message connection.get_realm connection.get_session_id
           message]⟩
    | none => some ⟨connection, m_routers, [event.get_router connection.get_realm]⟩
  | .UNSUBSCRIBE =>
    match m_routers.get_router connection.get_realm with
    | some _ =>
      some ⟨connection, m_routers,
        [event.get_router connection.get_realm,
         event.process_unsubscribe_message connection.get_realm connection.get_session_id
           message]⟩
    | none => some ⟨connection, m_routers, [event.get_router connection.get_realm]⟩
  | .YIELD =>
    match m_routers.get_router connection.get_realm with
    | some _ =>
      some ⟨connection, m_routers,
        [event.get_router connection.get_realm,
         event.process_yield_message connection.get_realm connection.get_session_id message]⟩
    | none => some ⟨connection, m_routers, [event.get_router connection.get_realm]⟩
  | _ => some ⟨connection, m_routers, []⟩


/-! ## Definitions used to state the properties -/

/-- The calls made by the retry loop, started at its `k`-th generator output, when
it accepts the id of its `n`-th further iteration: `n` rejected ids, then the
accepted one, each generated and then checked. -/
def retry_calls (gen : Nat → wamp_session_id) (realm : wamp_uri) (k n : Nat) : List event :=
  (List.range (n + 1)).flatMap
    (fun i => [event.generate realm (gen (k + i)), event.has_session realm (gen (k + i))])

/-- The ten message types for which the `switch` of `process_message` has a body
that calls a collaborator. -/
def dispatched_types : List wamp_message_type :=
  [.CALL, .ERROR, .GOODBYE, .HELLO, .PUBLISH, .REGISTER, .SUBSCRIBE, .UNREGISTER,
   .UNSUBSCRIBE, .YIELD]

/-- Whether the event is a message sent on a transport. -/
def event.is_send : event → Bool
  | .send_message _ _ => true
  | _ => false

/-- Whether the event is an operation invoked on a router: a session table
operation or a `process_*_message` call. -/
def event.is_router_call : event → Bool
  | .get_router _ => false
  | .send_message _ _ => false
  | .set_session_id _ => false
  | .set_realm _ => false
  | .clear_data => false
  | _ => true

/-- One delivery by the transport layer on a connection: the decoded message, the
transport handle passed with it, and the behaviour of the generator during the call
(its outputs and the bound on the retry loop). -/
structure delivery where
  gen : Nat → wamp_session_id
  fuel : Nat
  message : wamp_message
  transport : wamp_transport

/-- A sequence of `process_message` calls on one connection: each call starts from
the connection context and the routers the previous call left, and the traces are
concatenated. -/
def process_messages (unmarshal : msgpack_object → List wamp_role) :
    wamp_routers → wamp_connection_base → List delivery → Option outcome
  | rs, c, [] => some ⟨c, rs, []⟩
  | rs, c, d :: ds =>
    match process_message d.gen unmarshal d.fuel rs d.message d.transport c with
    | none => none
    | some o =>
      match process_messages unmarshal o.routers o.connection ds with
      | none => none
      | some o' => some ⟨o'.connection, o'.routers, o.trace ++ o'.trace⟩

/-- The effect of one call on the list of sessions attached and not yet detached,
each with the realm of the router it is attached to. -/
def live_step (live : List (wamp_uri × wamp_session)) : event → List (wamp_uri × wamp_session)
  | .attach_session realm s => (realm, s) :: live
  | .detach_session realm id =>
    live.filter (fun p => !(p.1 == realm && p.2.m_session_id == id))
  | _ => live

/-- The sessions that a trace attached to a router and did not detach afterwards. -/
def live_sessions (trace : List event) : List (wamp_uri × wamp_session) :=
  trace.foldl live_step []

/-- Whether, in a sequence of deliveries, no HELLO arrives on a connection that has
completed the handshake: `opened` tells whether a HELLO naming a realm with a router
has been delivered with no GOODBYE since. -/
def hello_only_before_handshake (rs : wamp_routers) : Bool → List delivery → Bool
  | _, [] => true
  | opened, d :: ds =>
    match d.message.type with
    | .HELLO =>
      !opened &&
        hello_only_before_handshake rs (rs.get_router d.message.get_realm).isSome ds
    | .GOODBYE => hello_only_before_handshake rs false ds
    | _ => hello_only_before_handshake rs opened ds


/-- A registry that knows the single realm "realm1", whose router has no session. -/
def sample_routers : wamp_routers :=
  fun x => if x = "realm1" then some ⟨[]⟩ else none

/-- A router whose session table holds the sessions 1 and 2. -/
def sample_busy_router : wamp_router :=
  ⟨[⟨1, "realm1", 10, [.caller]⟩, ⟨2, "realm1", 11, [.callee]⟩]⟩

/-- A registry that knows the single realm "realm1", with sessions 1 and 2 attached. -/
def sample_busy_routers : wamp_routers :=
  fun x => if x = "realm1" then some sample_busy_router else none

/-- A generator that yields 1, 2, 3, ... -/
def sample_gen : Nat → wamp_session_id := fun k => k + 1

/-- An unmarshaller that reads every details dictionary as the caller role. -/
def sample_unmarshal : msgpack_object → List wamp_role := fun _ => [.caller]

/-- A message of the given type naming the given realm, with no other content. -/
def sample_message (type : wamp_message_type) (realm : wamp_uri) : wamp_message :=
  ⟨type, realm, [], []⟩

/-- A connection context that carries session 1 of realm "realm1". -/
def sample_connection : wamp_connection_base := ⟨"realm1", 1⟩


/-- A handshake into "realm1", a call, a termination and a second handshake. -/
def sample_deliveries : List delivery :=
  [⟨sample_gen, 1, sample_message .HELLO "realm1", 7⟩,
   ⟨sample_gen, 1, sample_message .CALL "", 7⟩,
   ⟨sample_gen, 1, sample_message .GOODBYE "", 7⟩,
   ⟨sample_gen, 1, sample_message .HELLO "realm1", 7⟩]

/-! ## The retry loop -/

theorem retry_calls_zero (gen : Nat → wamp_session_id) (realm : wamp_uri) (k : Nat) :
    retry_calls gen realm k 0 =
      [event.generate realm (gen k), event.has_session realm (gen k)] := by
  rfl

theorem retry_calls_succ (gen : Nat → wamp_session_id) (realm : wamp_uri) (k n : Nat) :
    retry_calls gen realm k (n + 1) =
      event.generate realm (gen k) :: event.has_session realm (gen k) ::
        retry_calls gen realm (k + 1) n := by
  unfold retry_calls
  rw [List.range_succ_eq_map (n + 1)]
  simp [List.flatMap_map, Function.comp_def, Nat.add_assoc, Nat.add_comm 1]

theorem generate_session_id_first_free (gen : Nat → wamp_session_id) (realm : wamp_uri)
    (router : wamp_router) (n : Nat) :
    ∀ k fuel, router.has_session (gen (k + n)) = false →
      (∀ m, m < n → router.has_session (gen (k + m)) = true) → n < fuel →
      generate_session_id gen realm router fuel k =
        some (gen (k + n), retry_calls gen realm k n) := by
  induction n with
  | zero =>
    intro k fuel hfree _ hfuel
    obtain ⟨f, rfl⟩ : ∃ f, fuel = f + 1 := ⟨fuel - 1, by omega⟩
    simp only [Nat.add_zero] at hfree
    simp [generate_session_id, hfree, retry_calls_zero]
  | succ n ih =>
    intro k fuel hfree hbusy hfuel
    obtain ⟨f, rfl⟩ : ∃ f, fuel = f + 1 := ⟨fuel - 1, by omega⟩
    have h0 : router.has_session (gen k) = true := by simpa using hbusy 0 (by omega)
    have hrec := ih (k + 1) f (by simpa [Nat.add_assoc, Nat.add_comm 1] using hfree)
      (fun m hm => by simpa [Nat.add_assoc, Nat.add_comm 1] using hbusy (m + 1) (by omega))
      (by omega)
    simp [generate_session_id, h0, hrec, retry_calls_succ, Nat.add_assoc, Nat.add_comm 1]

/-- Among the outputs of a generator that ever yields an id outside the session
table there is a first such output. -/
theorem exists_first_free (gen : Nat → wamp_session_id) (router : wamp_router)
    (h : ∃ n, router.has_session (gen n) = false) :
    ∃ n, router.has_session (gen n) = false ∧
      ∀ m, m < n → router.has_session (gen m) = true := by
  classical
  refine ⟨Nat.find h, Nat.find_spec h, fun m hm => ?_⟩
  have := Nat.find_min h hm
  simpa using this

theorem has_session_false_iff (router : wamp_router) (id : wamp_session_id) :
    router.has_session id = false ↔ ∀ s ∈ router.m_sessions, s.m_session_id ≠ id := by
  simp [wamp_router.has_session]

theorem retry_calls_mem (gen : Nat → wamp_session_id) (realm : wamp_uri) (k n : Nat)
    (e : event) (he : e ∈ retry_calls gen realm k n) :
    ∃ id, e = event.generate realm id ∨ e = event.has_session realm id := by
  simp only [retry_calls, List.mem_flatMap, List.mem_range] at he
  obtain ⟨i, _, hi⟩ := he
  simp only [List.mem_cons, List.mem_singleton, List.not_mem_nil, or_false] at hi
  exact ⟨gen (k + i), hi⟩

/-- The handshake branch with a resolved router, once the loop has enough fuel. -/
theorem process_message_hello_found (gen : Nat → wamp_session_id)
    (unmarshal : msgpack_object → List wamp_role) (fuel : Nat) (m_routers : wamp_routers)
    (message : wamp_message) (transport : wamp_transport) (connection : wamp_connection_base)
    (router : wamp_router) (n : Nat)
    (h_type : message.type = .HELLO)
    (h_router : m_routers.get_router message.get_realm = some router)
    (h_free : router.has_session (gen n) = false)
    (h_busy : ∀ m, m < n → router.has_session (gen m) = true)
    (h_fuel : n < fuel) :
    process_message gen unmarshal fuel m_routers message transport connection =
      some ⟨⟨message.get_realm, gen n⟩,
        m_routers.update message.get_realm
          (router.attach_session
            ⟨gen n, message.get_realm, transport, unmarshal message.get_details⟩),
        event.get_router message.get_realm :: retry_calls gen message.get_realm 0 n ++
          [event.set_session_id (gen n),
           event.set_realm message.get_realm,
           event.attach_session message.get_realm
             ⟨gen n, message.get_realm, transport, unmarshal message.get_details⟩,
           event.process_hello_message message.get_realm (gen n) message]⟩ := by
  have hloop := generate_session_id_first_free gen message.get_realm router n 0 fuel
    (by simpa using h_free) (fun m hm => by simpa using h_busy m hm) h_fuel
  simp only [Nat.zero_add] at hloop
  simp only [process_message, h_type, h_router, hloop]
  rfl

/-! ## The properties -/

/-- C1: a HELLO whose realm has no router makes `process_message` look the realm up
and send exactly one message on the supplied transport, an abort with reason
"wamp.error.no_such_realm", and nothing else: no id is generated, no session is
attached, no welcome is produced, connection and routers are unchanged. -/
theorem hello_unknown_realm_only_aborts (gen : Nat → wamp_session_id)
    (unmarshal : msgpack_object → List wamp_role) (fuel : Nat) (m_routers : wamp_routers)
    (message : wamp_message) (transport : wamp_transport) (connection : wamp_connection_base)
    (h_type : message.type = .HELLO)
    (h_router : m_routers.get_router message.get_realm = none) :
    ∃ out, process_message gen unmarshal fuel m_routers message transport connection = some out ∧
      out.trace = [event.get_router message.get_realm,
        event.send_message transport ⟨"wamp.error.no_such_realm"⟩] ∧
      out.connection = connection ∧
      out.routers = m_routers := by
  simp only [process_message, h_type, h_router]
  exact ⟨_, rfl, rfl, rfl, rfl⟩


/-- C3: a HELLO whose realm resolves to a router, with a generator that eventually
yields an id outside the session table: once the loop has run, `process_message`
has set the connection's session id to the generated id and its realm to the
hello's realm, built one session with that id, that realm, the supplied transport
and the roles unmarshalled from the hello details, attached it to the resolved
router and only then called `process_hello_message` on that router with the same
id; no message is sent on the transport. -/
theorem hello_known_realm_attaches_then_welcomes (gen : Nat → wamp_session_id)
    (unmarshal : msgpack_object → List wamp_role) (m_routers : wamp_routers)
    (message : wamp_message) (transport : wamp_transport) (connection : wamp_connection_base)
    (router : wamp_router)
    (h_type : message.type = .HELLO)
    (h_router : m_routers.get_router message.get_realm = some router)
    (h_free : ∃ n, router.has_session (gen n) = false) :
    ∃ n, ∀ fuel, n < fuel →
      ∃ out id session,
        process_message gen unmarshal fuel m_routers message transport connection = some out ∧
        id = gen n ∧
        out.connection.get_session_id = id ∧
        out.connection.get_realm = message.get_realm ∧
        session.m_session_id = id ∧
        session.m_realm = message.get_realm ∧
        session.m_transport = transport ∧
        session.m_roles = unmarshal message.get_details ∧
        out.routers = m_routers.update message.get_realm (router.attach_session session) ∧
        out.trace =
          event.get_router message.get_realm :: retry_calls gen message.get_realm 0 n ++
            [event.set_session_id id,
             event.set_realm message.get_realm,
             event.attach_session message.get_realm session,
             event.process_hello_message message.get_realm id message] ∧
        ∀ e ∈ out.trace, e.is_send = false := by
  obtain ⟨n, hfree, hbusy⟩ := exists_first_free gen router h_free
  refine ⟨n, fun fuel hfuel => ?_⟩
  refine ⟨_, gen n, ⟨gen n, message.get_realm, transport, unmarshal message.get_details⟩,
    process_message_hello_found gen unmarshal fuel m_routers message transport connection
      router n h_type h_router hfree hbusy hfuel, rfl, rfl, rfl, rfl, rfl, rfl, rfl, rfl, rfl, ?_⟩
  intro e he
  simp only [List.mem_cons, List.mem_append, List.not_mem_nil, or_false] at he
  rcases he with (rfl | he) | rfl | rfl | rfl | rfl
  · rfl
  · obtain ⟨id, rfl | rfl⟩ := retry_calls_mem gen _ _ _ e he <;> rfl
  all_goals rfl

/-- C4: for a message of type CALL, ERROR, YIELD, REGISTER, UNREGISTER, PUBLISH,
SUBSCRIBE or UNSUBSCRIBE on a connection whose realm resolves to a router,
`process_message` looks that realm up and makes exactly one call, the matching
`process_*_message`, once, on the router of the connection's realm, with the
connection's session id and the message itself; nothing is sent on the transport and
the connection and the session tables are unchanged. -/
theorem forwards_to_router_of_connection_realm (gen : Nat → wamp_session_id)
    (unmarshal : msgpack_object → List wamp_role) (fuel : Nat) (m_routers : wamp_routers)
    (message : wamp_message) (transport : wamp_transport) (connection : wamp_connection_base)
    (router : wamp_router)
    (h_router : m_routers.get_router connection.get_realm = some router) :
    (message.type = .CALL →
      process_message gen unmarshal fuel m_routers message transport connection =
        some ⟨connection, m_routers, [event.get_router connection.get_realm,
          event.process_call_message connection.get_realm connection.get_session_id
            message]⟩) ∧
    (message.type = .ERROR →
      process_message gen unmarshal fuel m_routers message transport connection =
        some ⟨connection, m_routers, [event.get_router connection.get_realm,
          event.process_error_message connection.get_realm connection.get_session_id
            message]⟩) ∧
    (message.type = .YIELD →
      process_message gen unmarshal fuel m_routers message transport connection =
        some ⟨connection, m_routers, [event.get_router connection.get_realm,
          event.process_yield_message connection.get_realm connection.get_session_id
            message]⟩) ∧
    (message.type = .REGISTER →
      process_message gen unmarshal fuel m_routers message transport connection =
        some ⟨connection, m_routers, [event.get_router connection.get_realm,
          event.process_register_message connection.get_realm connection.get_session_id
            message]⟩) ∧
    (message.type = .UNREGISTER →
      process_message gen unmarshal fuel m_routers message transport connection =
        some ⟨connection, m_routers, [event.get_router connection.get_realm,
          event.process_unregister_message connection.get_realm connection.get_session_id
            message]⟩) ∧
    (message.type = .PUBLISH →
      process_message gen unmarshal fuel m_routers message transport connection =
        some ⟨connection, m_routers, [event.get_router connection.get_realm,
          event.process_publish_message connection.get_realm connection.get_session_id
            message]⟩) ∧
    (message.type = .SUBSCRIBE →
      process_message gen unmarshal fuel m_routers message transport connection =
        some ⟨connection, m_routers, [event.get_router connection.get_realm,
          event.process_subscribe_message connection.get_realm connection.get_session_id
            message]⟩) ∧
    (message.type = .UNSUBSCRIBE →
      process_message gen unmarshal fuel m_routers message transport connection =
        some ⟨connection, m_routers, [event.get_router connection.get_realm,
          event.process_unsubscribe_message connection.get_realm connection.get_session_id
            message]⟩) := by
  refine ⟨?_, ?_, ?_, ?_, ?_, ?_, ?_, ?_⟩ <;> intro h_type <;>
    simp only [process_message, h_type, h_router]

/-- C5: for a GOODBYE on a connection whose realm resolves to a router,
`process_message` calls `process_goodbye_message` and then `detach_session` on that
router, both with the connection's session id as it was before the call, so the
session is no longer in that router's session table, and then clears the connection
context; when no router resolves the connection context is cleared all the same. -/
theorem goodbye_detaches_then_clears (gen : Nat → wamp_session_id)
    (unmarshal : msgpack_object → List wamp_role) (fuel : Nat) (m_routers : wamp_routers)
    (message : wamp_message) (transport : wamp_transport) (connection : wamp_connection_base)
    (h_type : message.type = .GOODBYE) :
    ∃ out, process_message gen unmarshal fuel m_routers message transport connection = some out ∧
      out.connection = wamp_connection_base.unset ∧
      (∀ router, m_routers.get_router connection.get_realm = some router →
        out.trace =
          [event.get_router connection.get_realm,
           event.process_goodbye_message connection.get_realm connection.get_session_id
             message,
           event.detach_session connection.get_realm connection.get_session_id,
           event.clear_data] ∧
        out.routers = m_routers.update connection.get_realm
          (router.detach_session connection.get_session_id) ∧
        ∃ router', out.routers.get_router connection.get_realm = some router' ∧
          router'.has_session connection.get_session_id = false ∧
          ∀ s ∈ router'.m_sessions, s.m_session_id ≠ connection.get_session_id) ∧
      (m_routers.get_router connection.get_realm = none →
        out.trace = [event.get_router connection.get_realm, event.clear_data] ∧
        out.routers = m_routers) := by
  cases h_router : m_routers.get_router connection.get_realm with
  | none =>
    simp only [process_message, h_type, h_router]
    exact ⟨_, rfl, rfl, fun _ h => by simp at h, fun _ => ⟨rfl, rfl⟩⟩
  | some router =>
    simp only [process_message, h_type, h_router]
    refine ⟨_, rfl, rfl, fun r hr => ?_, fun h => by simp at h⟩
    obtain rfl : router = r := by simpa using hr
    refine ⟨rfl, rfl, router.detach_session connection.get_session_id, ?_, ?_, ?_⟩
    · simp [wamp_routers.get_router, wamp_routers.update]
    · simp [wamp_router.has_session, wamp_router.detach_session]
    · simp [wamp_router.detach_session]

/-- C8: for a message whose type is not HELLO on a connection whose realm resolves to
no router, `process_message` drops the message: it sends nothing on any transport and
invokes no operation on any router (its trace is at most the failed lookup and, for
GOODBYE, the clearing of the connection context), so every router is unchanged. -/
theorem drops_when_no_router_resolves (gen : Nat → wamp_session_id)
    (unmarshal : msgpack_object → List wamp_role) (fuel : Nat) (m_routers : wamp_routers)
    (message : wamp_message) (transport : wamp_transport) (connection : wamp_connection_base)
    (h_type : message.type ≠ .HELLO)
    (h_router : m_routers.get_router connection.get_realm = none) :
    ∃ out, process_message gen unmarshal fuel m_routers message transport connection = some out ∧
      out.routers = m_routers ∧
      (∀ e ∈ out.trace, e.is_send = false ∧ e.is_router_call = false) ∧
      (out.trace = [] ∨ out.trace = [event.get_router connection.get_realm] ∨
        out.trace = [event.get_router connection.get_realm, event.clear_data]) := by
  cases h : message.type <;> first
    | exact absurd h h_type
    | (simp only [process_message, h, h_router]
       exact ⟨_, rfl, rfl, by simp [event.is_send, event.is_router_call], by simp⟩)

/-- C9: for a message of type AUTHENTICATE or CANCEL, and for a message of any type
the `switch` has no case for, in every connection state, `process_message` does
nothing: it looks up no router, sends nothing, and leaves the connection context and
every router unchanged. -/
theorem ignores_reserved_and_unhandled_types (gen : Nat → wamp_session_id)
    (unmarshal : msgpack_object → List wamp_role) (fuel : Nat) (m_routers : wamp_routers)
    (message : wamp_message) (transport : wamp_transport) (connection : wamp_connection_base)
    (h_type : message.type ∉ dispatched_types) :
    process_message gen unmarshal fuel m_routers message transport connection =
      some ⟨connection, m_routers, []⟩ := by
  cases h : message.type <;> first
    | (exfalso; apply h_type; rw [h]; decide)
    | (simp only [process_message, h])


/-- C2: for a HELLO whose realm resolves to a router and a generator whose outputs
contain an id outside the router's session table, the retry loop terminates and the
id assigned to the connection is the first generated id for which `has_session` is
false; it differs from the id of every session in the table, and a further session
that handshakes into the same realm while this one is attached receives a different
id. -/
theorem assigned_session_id_is_first_free (gen : Nat → wamp_session_id)
    (unmarshal : msgpack_object → List wamp_role) (m_routers : wamp_routers)
    (message : wamp_message) (transport : wamp_transport) (connection : wamp_connection_base)
    (router : wamp_router)
    (h_type : message.type = .HELLO)
    (h_router : m_routers.get_router message.get_realm = some router)
    (h_free : ∃ n, router.has_session (gen n) = false) :
    ∃ n, router.has_session (gen n) = false ∧
      (∀ m, m < n → router.has_session (gen m) = true) ∧
      ∀ fuel, n < fuel →
        ∃ out,
          process_message gen unmarshal fuel m_routers message transport connection =
            some out ∧
          out.connection.get_session_id = gen n ∧
          (∀ s ∈ router.m_sessions, s.m_session_id ≠ gen n) ∧
          ∀ (gen2 : Nat → wamp_session_id) (message2 : wamp_message)
            (transport2 : wamp_transport) (connection2 : wamp_connection_base)
            (router2 : wamp_router),
            message2.type = .HELLO → message2.get_realm = message.get_realm →
            out.routers.get_router message.get_realm = some router2 →
            (∃ k, router2.has_session (gen2 k) = false) →
            ∃ n2, ∀ fuel2, n2 < fuel2 →
              ∃ out2,
                process_message gen2 unmarshal fuel2 out.routers message2 transport2
                  connection2 = some out2 ∧
                out2.connection.get_session_id ≠ out.connection.get_session_id := by
  obtain ⟨n, hfree, hbusy⟩ := exists_first_free gen router h_free
  refine ⟨n, hfree, hbusy, fun fuel hfuel => ?_⟩
  refine ⟨_, process_message_hello_found gen unmarshal fuel m_routers message transport
    connection router n h_type h_router hfree hbusy hfuel, rfl,
    (has_session_false_iff router (gen n)).1 hfree, ?_⟩
  intro gen2 message2 transport2 connection2 router2 h_type2 h_realm2 h_router2 h_free2
  have hr2 : router2 = router.attach_session
      ⟨gen n, message.get_realm, transport, unmarshal message.get_details⟩ := by
    simpa [wamp_routers.get_router, wamp_routers.update] using h_router2.symm
  obtain ⟨n2, hfree2, hbusy2⟩ := exists_first_free gen2 router2 h_free2
  refine ⟨n2, fun fuel2 hfuel2 => ?_⟩
  refine ⟨_, process_message_hello_found gen2 unmarshal fuel2 _ message2 transport2
    connection2 router2 n2 h_type2 (by rw [h_realm2]; exact h_router2) hfree2 hbusy2 hfuel2,
    ?_⟩
  have hne := (has_session_false_iff router2 (gen2 n2)).1 hfree2
    ⟨gen n, message.get_realm, transport, unmarshal message.get_details⟩
    (by rw [hr2]; simp [wamp_router.attach_session])
  exact fun h => hne h.symm


/-! ## Sequences of calls on one connection -/

theorem generate_session_id_live (gen : Nat → wamp_session_id) (realm : wamp_uri)
    (router : wamp_router) :
    ∀ fuel k id loop, generate_session_id gen realm router fuel k = some (id, loop) →
      ∀ live, loop.foldl live_step live = live := by
  intro fuel
  induction fuel with
  | zero => intro k id loop h; simp [generate_session_id] at h
  | succ f ih =>
    intro k id loop h live
    simp only [generate_session_id] at h
    split at h
    · cases hrec : generate_session_id gen realm router f (k + 1) with
      | none => simp [hrec] at h
      | some p =>
        obtain ⟨id', evs⟩ := p
        simp only [hrec, Option.some.injEq, Prod.mk.injEq] at h
        obtain ⟨_, rfl⟩ := h
        simpa [live_step] using ih (k + 1) id' evs hrec live
    · simp only [Option.some.injEq, Prod.mk.injEq] at h
      obtain ⟨_, rfl⟩ := h
      simp [live_step]

theorem update_isSome (rs : wamp_routers) (realm : wamp_uri) (r r' : wamp_router)
    (h : rs.get_router realm = some r) (x : wamp_uri) :
    ((rs.update realm r') x).isSome = (rs x).isSome := by
  unfold wamp_routers.update
  by_cases hx : x = realm
  · subst hx
    have : rs x = some r := h
    simp [this]
  · simp [hx]

/-- A call of `process_message` never adds a realm to the registry nor removes one. -/
theorem process_message_registry (gen : Nat → wamp_session_id)
    (unmarshal : msgpack_object → List wamp_role) (fuel : Nat) (rs : wamp_routers)
    (message : wamp_message) (transport : wamp_transport) (c : wamp_connection_base)
    (o : outcome) (h : process_message gen unmarshal fuel rs message transport c = some o)
    (x : wamp_uri) : (o.routers x).isSome = (rs x).isSome := by
  cases ht : message.type <;> simp only [process_message, ht] at h
  case GOODBYE =>
    cases hr : rs.get_router c.get_realm with
    | none => simp only [hr, Option.some.injEq] at h; subst h; rfl
    | some r =>
      simp only [hr, Option.some.injEq] at h; subst h
      exact update_isSome rs _ r _ hr x
  case HELLO =>
    cases hr : rs.get_router message.get_realm with
    | none => simp only [hr, Option.some.injEq] at h; subst h; rfl
    | some r =>
      simp only [hr] at h
      cases hg : generate_session_id gen message.get_realm r fuel 0 with
      | none => simp [hg] at h
      | some p =>
        simp only [hg, Option.some.injEq] at h; subst h
        exact update_isSome rs _ r _ hr x
  all_goals first
    | (simp only [Option.some.injEq] at h; subst h; rfl)
    | (cases hr : rs.get_router c.get_realm <;>
        simp only [hr, Option.some.injEq] at h <;> subst h <;> rfl)

/-- The effect of a HELLO on the connection context and on the live sessions. -/
theorem process_message_hello_live (gen : Nat → wamp_session_id)
    (unmarshal : msgpack_object → List wamp_role) (fuel : Nat) (rs : wamp_routers)
    (message : wamp_message) (transport : wamp_transport) (c : wamp_connection_base)
    (o : outcome) (h : process_message gen unmarshal fuel rs message transport c = some o)
    (ht : message.type = .HELLO) :
    (rs.get_router message.get_realm = none →
      o.connection = c ∧ ∀ live, o.trace.foldl live_step live = live) ∧
    ((rs.get_router message.get_realm).isSome = true →
      ∃ s : wamp_session, s.m_session_id = o.connection.get_session_id ∧
        s.m_realm = o.connection.get_realm ∧
        o.connection.get_realm = message.get_realm ∧
        ∀ live, o.trace.foldl live_step live = (message.get_realm, s) :: live) := by
  simp only [process_message, ht] at h
  cases hr : rs.get_router message.get_realm with
  | none =>
    simp only [hr, Option.some.injEq] at h; subst h
    exact ⟨fun _ => ⟨rfl, fun live => by simp [live_step]⟩, fun hs => by simp at hs⟩
  | some r =>
    simp only [hr] at h
    cases hg : generate_session_id gen message.get_realm r fuel 0 with
    | none => simp [hg] at h
    | some p =>
      obtain ⟨id, loop⟩ := p
      simp only [hg, Option.some.injEq] at h; subst h
      refine ⟨fun hn => by simp at hn, fun _ =>
        ⟨⟨id, message.get_realm, transport, unmarshal message.get_details⟩, rfl, rfl, rfl,
          fun live => ?_⟩⟩
      simp [live_step, List.foldl_append, generate_session_id_live gen _ r fuel 0 id loop hg,
        wamp_session.make, wamp_session.set_roles]

/-- The effect of a GOODBYE on the connection context and on the live sessions. -/
theorem process_message_goodbye_live (gen : Nat → wamp_session_id)
    (unmarshal : msgpack_object → List wamp_role) (fuel : Nat) (rs : wamp_routers)
    (message : wamp_message) (transport : wamp_transport) (c : wamp_connection_base)
    (o : outcome) (h : process_message gen unmarshal fuel rs message transport c = some o)
    (ht : message.type = .GOODBYE) :
    o.connection = wamp_connection_base.unset ∧
    (rs.get_router c.get_realm = none → ∀ live, o.trace.foldl live_step live = live) ∧
    ((rs.get_router c.get_realm).isSome = true →
      ∀ live, o.trace.foldl live_step live =
        live.filter (fun p => !(p.1 == c.get_realm && p.2.m_session_id == c.get_session_id))) := by
  simp only [process_message, ht] at h
  cases hr : rs.get_router c.get_realm with
  | none =>
    simp only [hr, Option.some.injEq] at h; subst h
    exact ⟨rfl, fun _ live => by simp [live_step], fun hs => by simp at hs⟩
  | some r =>
    simp only [hr, Option.some.injEq] at h; subst h
    exact ⟨rfl, fun hn => by simp at hn, fun _ live => by simp [live_step]⟩

/-- Every other message leaves the connection context and the live sessions alone. -/
theorem process_message_other_live (gen : Nat → wamp_session_id)
    (unmarshal : msgpack_object → List wamp_role) (fuel : Nat) (rs : wamp_routers)
    (message : wamp_message) (transport : wamp_transport) (c : wamp_connection_base)
    (o : outcome) (h : process_message gen unmarshal fuel rs message transport c = some o)
    (ht : message.type ≠ .HELLO) (ht' : message.type ≠ .GOODBYE) :
    o.connection = c ∧ ∀ live, o.trace.foldl live_step live = live := by
  cases htype : message.type <;> simp only [process_message, htype] at h
  case HELLO => exact absurd htype ht
  case GOODBYE => exact absurd htype ht'
  all_goals first
    | (simp only [Option.some.injEq] at h; subst h
       exact ⟨rfl, fun live => by simp [live_step]⟩)
    | (cases hr : rs.get_router c.get_realm <;>
        simp only [hr, Option.some.injEq] at h <;> subst h <;>
        exact ⟨rfl, fun live => by simp [live_step]⟩)

theorem hello_only_before_handshake_congr (rs rs' : wamp_routers)
    (h : ∀ x, (rs' x).isSome = (rs x).isSome) :
    ∀ ds opened, hello_only_before_handshake rs' opened ds =
      hello_only_before_handshake rs opened ds := by
  intro ds
  induction ds with
  | nil => intro opened; rfl
  | cons d ds ih =>
    intro opened
    cases ht : d.message.type <;>
      simp [hello_only_before_handshake, ht, ih, wamp_routers.get_router, h]


theorem hello_only_before_handshake_other (rs : wamp_routers) (opened : Bool) (d : delivery)
    (ds : List delivery) (ht : d.message.type ≠ .HELLO) (ht' : d.message.type ≠ .GOODBYE) :
    hello_only_before_handshake rs opened (d :: ds) =
      hello_only_before_handshake rs opened ds := by
  cases h : d.message.type <;> simp_all [hello_only_before_handshake]

/-- The invariant carried along a sequence in which no HELLO arrives after a completed
handshake: every live session is the connection's current session, attached to a
router that the registry resolves, and there is none while no handshake is open. -/
theorem process_messages_live (unmarshal : msgpack_object → List wamp_role) :
    ∀ (ds : List delivery) (rs : wamp_routers) (c : wamp_connection_base) (opened : Bool)
      (live : List (wamp_uri × wamp_session)) (out : outcome),
      hello_only_before_handshake rs opened ds = true →
      process_messages unmarshal rs c ds = some out →
      (opened = false → live = []) →
      (∀ p ∈ live, p.1 = c.get_realm ∧ p.2.m_session_id = c.get_session_id ∧
        p.2.m_realm = c.get_realm ∧ (rs.get_router c.get_realm).isSome = true) →
      ∀ p ∈ out.trace.foldl live_step live,
        p.2.m_session_id = out.connection.get_session_id ∧
          p.2.m_realm = out.connection.get_realm := by
  intro ds
  induction ds with
  | nil =>
    intro rs c opened live out _ hrun _ hlive p hp
    simp only [process_messages, Option.some.injEq] at hrun
    subst hrun
    exact ⟨(hlive p hp).2.1, (hlive p hp).2.2.1⟩
  | cons d ds ih =>
    intro rs c opened live out hseq hrun hclosed hlive
    simp only [process_messages] at hrun
    cases hstep : process_message d.gen unmarshal d.fuel rs d.message d.transport c with
    | none => simp [hstep] at hrun
    | some o =>
      simp only [hstep] at hrun
      cases hrest : process_messages unmarshal o.routers o.connection ds with
      | none => simp [hrest] at hrun
      | some o' =>
        simp only [hrest, Option.some.injEq] at hrun
        subst hrun
        simp only [List.foldl_append]
        have hreg := process_message_registry d.gen unmarshal d.fuel rs d.message
          d.transport c o hstep
        have hcongr := hello_only_before_handshake_congr rs o.routers hreg ds
        by_cases ht : d.message.type = .HELLO
        · -- a handshake, delivered while no handshake is open
          have hseq' : opened = false ∧ hello_only_before_handshake rs
              (rs.get_router d.message.get_realm).isSome ds = true := by
            simpa [hello_only_before_handshake, ht] using hseq
          obtain ⟨hop, hseq'⟩ := hseq'
          have hnil := hclosed hop
          subst hnil
          obtain ⟨hnone, hsome⟩ := process_message_hello_live d.gen unmarshal d.fuel rs
            d.message d.transport c o hstep ht
          cases hr : rs.get_router d.message.get_realm with
          | none =>
            obtain ⟨_, hl⟩ := hnone hr
            rw [hl]
            rw [hr] at hseq'
            exact ih o.routers o.connection false [] o' (by rw [hcongr]; exact hseq') hrest
              (fun _ => rfl) (fun p hp => by simp at hp)
          | some r =>
            obtain ⟨s, hid, hrealm, hcr, hl⟩ := hsome (by simp [hr])
            rw [hl]
            rw [hr] at hseq'
            refine ih o.routers o.connection true _ o' (by rw [hcongr]; exact hseq') hrest
              (fun h => by simp at h) (fun p hp => ?_)
            simp only [List.mem_singleton] at hp
            subst hp
            refine ⟨hcr.symm, hid, hrealm, ?_⟩
            have := hreg o.connection.get_realm
            have hr' : rs d.message.get_realm = some r := hr
            rw [hcr] at this ⊢
            rw [hr'] at this
            simpa [wamp_routers.get_router] using this
        · by_cases ht' : d.message.type = .GOODBYE
          · -- a termination: the current session is detached, the context cleared
            have hseq' : hello_only_before_handshake rs false ds = true := by
              simpa [hello_only_before_handshake, ht'] using hseq
            obtain ⟨hc, hnone, hsome⟩ := process_message_goodbye_live d.gen unmarshal d.fuel
              rs d.message d.transport c o hstep ht'
            have hempty : o.trace.foldl live_step live = [] := by
              cases hr : rs.get_router c.get_realm with
              | none =>
                rw [hnone hr]
                cases live with
                | nil => rfl
                | cons p ps =>
                  have := (hlive p (List.mem_cons_self _ _)).2.2.2
                  simp [hr] at this
              | some r =>
                rw [hsome (by simp [hr])]
                rw [List.filter_eq_nil_iff]
                intro p hp
                obtain ⟨h1, h2, _, _⟩ := hlive p hp
                simp [h1, h2]
            rw [hempty]
            exact ih o.routers o.connection false [] o' (by rw [hcongr]; exact hseq') hrest
              (fun _ => rfl) (fun p hp => by simp at hp)
          · -- any other message changes neither the context nor the live sessions
            have hseq' : hello_only_before_handshake rs opened ds = true := by
              rw [← hello_only_before_handshake_other rs opened d ds ht ht']; exact hseq
            obtain ⟨hc, hl⟩ := process_message_other_live d.gen unmarshal d.fuel rs d.message
              d.transport c o hstep ht ht'
            rw [hl]
            refine ih o.routers o.connection opened live o' (by rw [hcongr]; exact hseq') hrest
              hclosed (fun p hp => ?_)
            obtain ⟨h1, h2, h3, h4⟩ := hlive p hp
            rw [hc]
            refine ⟨h1, h2, h3, ?_⟩
            have := hreg c.get_realm
            simpa [wamp_routers.get_router] using this.trans h4


/-! ## Behaviour in the absence of session-state checks -/

/-- C6, as stated, fails: a CALL delivered on a connection in the pre-handshake state
is not answered with an abort; the dispatcher only looks up the unset realm, sends
nothing and leaves the connection as it was. -/
theorem pre_handshake_call_sends_no_abort :
    ∃ out, process_message sample_gen sample_unmarshal 1 sample_routers
        (sample_message .CALL "") 7 wamp_connection_base.unset = some out ∧
      out.trace = [event.get_router ""] ∧
      (∀ e ∈ out.trace, e.is_send = false) ∧
      out.connection = wamp_connection_base.unset :=
  ⟨_, rfl, rfl, by decide, rfl⟩

/-- C6 (amended): for a connection in the pre-handshake state and a message whose
type is not HELLO, `process_message` sends no abort and does not terminate the
connection: nothing is sent on the transport and the connection context stays in the
pre-handshake state; when no router is registered under the unset realm, no router
operation is performed and every router is unchanged. -/
theorem pre_handshake_non_hello_sends_nothing (gen : Nat → wamp_session_id)
    (unmarshal : msgpack_object → List wamp_role) (fuel : Nat) (m_routers : wamp_routers)
    (message : wamp_message) (transport : wamp_transport)
    (h_type : message.type ≠ .HELLO) :
    ∃ out, process_message gen unmarshal fuel m_routers message transport
        wamp_connection_base.unset = some out ∧
      (∀ e ∈ out.trace, e.is_send = false) ∧
      out.connection = wamp_connection_base.unset ∧
      (m_routers.get_router wamp_connection_base.unset.get_realm = none →
        out.routers = m_routers ∧ ∀ e ∈ out.trace, e.is_router_call = false) := by
  cases h : message.type <;> first
    | exact absurd h h_type
    | (simp only [process_message, h]
       exact ⟨_, rfl, by simp, rfl, fun _ => ⟨rfl, by simp⟩⟩)
    | (cases hr : m_routers.get_router wamp_connection_base.unset.get_realm with
       | none =>
         simp only [process_message, h, hr]
         exact ⟨_, rfl, by simp [event.is_send], rfl,
           fun _ => ⟨rfl, by simp [event.is_router_call]⟩⟩
       | some r =>
         simp only [process_message, h, hr]
         exact ⟨_, rfl, by simp [event.is_send], rfl, fun hn => by cases hn⟩)

/-- C7, as stated, fails: after a HELLO naming the unknown realm "ghost" has been
answered with the abort, the connection is still open: a second HELLO delivered on
it, naming "realm1", completes a handshake and attaches a session. -/
theorem connection_still_open_after_abort :
    (process_messages sample_unmarshal sample_routers wamp_connection_base.unset
        [⟨sample_gen, 1, sample_message .HELLO "ghost", 7⟩,
         ⟨sample_gen, 1, sample_message .HELLO "realm1", 7⟩]).map
      (fun out => (out.connection, out.trace)) =
    some (⟨"realm1", 1⟩,
      [event.get_router "ghost",
       event.send_message 7 ⟨"wamp.error.no_such_realm"⟩,
       event.get_router "realm1",
       event.generate "realm1" 1,
       event.has_session "realm1" 1,
       event.set_session_id 1,
       event.set_realm "realm1",
       event.attach_session "realm1" ⟨1, "realm1", 7, [.caller]⟩,
       event.process_hello_message "realm1" 1 (sample_message .HELLO "realm1")]) := by
  decide

/-- C7 (amended): for a HELLO whose realm has no router, `process_message` sends the
abort and does not terminate the connection: the connection context is not cleared,
its session id and realm and every router are unchanged, and any message delivered
next on the connection is processed exactly as it would have been before the HELLO. -/
theorem hello_unknown_realm_keeps_connection (gen : Nat → wamp_session_id)
    (unmarshal : msgpack_object → List wamp_role) (fuel : Nat) (m_routers : wamp_routers)
    (message : wamp_message) (transport : wamp_transport) (connection : wamp_connection_base)
    (h_type : message.type = .HELLO)
    (h_router : m_routers.get_router message.get_realm = none) :
    ∃ out, process_message gen unmarshal fuel m_routers message transport connection = some out ∧
      (∃ e ∈ out.trace, e.is_send = true) ∧
      event.clear_data ∉ out.trace ∧
      out.connection.get_session_id = connection.get_session_id ∧
      out.connection.get_realm = connection.get_realm ∧
      ∀ (gen2 : Nat → wamp_session_id) (fuel2 : Nat) (message2 : wamp_message)
        (transport2 : wamp_transport),
        process_message gen2 unmarshal fuel2 out.routers message2 transport2 out.connection =
          process_message gen2 unmarshal fuel2 m_routers message2 transport2 connection := by
  simp only [process_message, h_type, h_router]
  exact ⟨_, rfl, ⟨_, List.mem_cons_of_mem _ (List.mem_singleton.2 rfl), rfl⟩, by simp, rfl, rfl,
    fun _ _ _ _ => rfl⟩

/-- C10, as stated, fails: a second HELLO on a connection that has completed the
handshake is not dropped; it attaches a second session and overwrites the
connection's session id, so session 1 stays live without being the connection's
current session. -/
theorem second_hello_attaches_second_session :
    (process_messages sample_unmarshal sample_routers wamp_connection_base.unset
        [⟨sample_gen, 2, sample_message .HELLO "realm1", 7⟩,
         ⟨sample_gen, 2, sample_message .HELLO "realm1", 7⟩]).map
      (fun out => (out.connection, live_sessions out.trace)) =
    some (⟨"realm1", 2⟩,
      [("realm1", ⟨2, "realm1", 7, [.caller]⟩), ("realm1", ⟨1, "realm1", 7, [.caller]⟩)]) := by
  decide

/-- C10 (amended): in every sequence of `process_message` calls on one connection in
which no HELLO is delivered after a completed handshake (a HELLO naming a realm with
a router, with no GOODBYE since), every session the sequence attached and has not
detached is the connection's current session.  A HELLO is processed in the same way
in every connection state: when its realm resolves, it overwrites the connection's
session id and realm and attaches a new session, and it detaches no session. -/
theorem live_session_is_current_without_second_hello
    (unmarshal : msgpack_object → List wamp_role) :
    (∀ (rs : wamp_routers) (c : wamp_connection_base) (ds : List delivery) (out : outcome),
      hello_only_before_handshake rs false ds = true →
      process_messages unmarshal rs c ds = some out →
      ∀ p ∈ live_sessions out.trace,
        p.2.m_session_id = out.connection.get_session_id ∧
          p.2.m_realm = out.connection.get_realm) ∧
    (∀ (gen : Nat → wamp_session_id) (rs : wamp_routers) (message : wamp_message)
      (transport : wamp_transport) (c : wamp_connection_base) (router : wamp_router)
      (n fuel : Nat),
      message.type = .HELLO →
      rs.get_router message.get_realm = some router →
      router.has_session (gen n) = false →
      (∀ m, m < n → router.has_session (gen m) = true) →
      n < fuel →
      ∃ out, process_message gen unmarshal fuel rs message transport c = some out ∧
        out.connection = ⟨message.get_realm, gen n⟩ ∧
        (∀ e ∈ out.trace, ∀ realm id, e ≠ event.detach_session realm id) ∧
        live_sessions out.trace =
          [(message.get_realm,
            ⟨gen n, message.get_realm, transport, unmarshal message.get_details⟩)]) := by
  constructor
  · intro rs c ds out hseq hrun
    exact process_messages_live unmarshal ds rs c false [] out hseq hrun (fun _ => rfl)
      (fun p hp => by simp at hp)
  · intro gen rs message transport c router n fuel h_type h_router h_free h_busy h_fuel
    have hpm := process_message_hello_found gen unmarshal fuel rs message transport c router n
      h_type h_router h_free h_busy h_fuel
    have hloop := generate_session_id_first_free gen message.get_realm router n 0 fuel
      (by simpa using h_free) (fun m hm => by simpa using h_busy m hm) h_fuel
    have hquiet := generate_session_id_live gen message.get_realm router fuel 0 _ _ hloop
    refine ⟨_, hpm, rfl, ?_, ?_⟩
    · intro e he realm id heq
      subst heq
      simp only [List.mem_cons, List.mem_append, List.not_mem_nil, or_false] at he
      rcases he with (he | he) | he | he | he | he
      · cases he
      · obtain ⟨i, hi | hi⟩ := retry_calls_mem gen _ _ _ _ he <;> cases hi
      all_goals cases he
    · simp [live_sessions, live_step, List.foldl_append, hquiet]

/-! ## The properties at concrete inputs -/

/-- C1 at a concrete input: a HELLO naming the unknown realm "ghost" on a connection that
carries a session. -/
theorem hello_unknown_realm_only_aborts_witness :
    sample_routers.get_router "ghost" = none ∧
    ∃ out, process_message sample_gen sample_unmarshal 1 sample_routers
        (sample_message .HELLO "ghost") 7 sample_connection = some out ∧
      out.trace = [event.get_router "ghost",
        event.send_message 7 ⟨"wamp.error.no_such_realm"⟩] ∧
      out.connection = sample_connection ∧
      out.routers = sample_routers :=
  ⟨by decide,
    hello_unknown_realm_only_aborts sample_gen sample_unmarshal 1 sample_routers
      (sample_message .HELLO "ghost") 7 sample_connection rfl (by decide)⟩

/-- C2 at a concrete input: sessions 1 and 2 are attached and the generator yields 1, 2,
3, ... -/
theorem assigned_session_id_is_first_free_witness :
    ∃ n, sample_busy_router.has_session (sample_gen n) = false ∧
      ∀ fuel, n < fuel →
        ∃ out, process_message sample_gen sample_unmarshal fuel sample_busy_routers
            (sample_message .HELLO "realm1") 12 wamp_connection_base.unset = some out ∧
          out.connection.get_session_id = sample_gen n ∧
          ∀ s ∈ sample_busy_router.m_sessions, s.m_session_id ≠ sample_gen n := by
  obtain ⟨n, h1, _, h⟩ := assigned_session_id_is_first_free sample_gen sample_unmarshal
    sample_busy_routers (sample_message .HELLO "realm1") 12 wamp_connection_base.unset
    sample_busy_router rfl (by decide) ⟨2, by decide⟩
  exact ⟨n, h1, fun fuel hf => by
    obtain ⟨out, h2, h3, h4, _⟩ := h fuel hf
    exact ⟨out, h2, h3, h4⟩⟩

/-- C3 at a concrete input: a HELLO naming "realm1", whose router holds sessions 1 and 2. -/
theorem hello_known_realm_attaches_then_welcomes_witness :
    ∃ n, ∀ fuel, n < fuel →
      ∃ out session,
        process_message sample_gen sample_unmarshal fuel sample_busy_routers
          (sample_message .HELLO "realm1") 12 wamp_connection_base.unset = some out ∧
        out.connection.get_session_id = sample_gen n ∧
        out.connection.get_realm = "realm1" ∧
        session.m_session_id = sample_gen n ∧
        session.m_transport = 12 ∧
        session.m_roles = [.caller] ∧
        out.routers = sample_busy_routers.update "realm1"
          (sample_busy_router.attach_session session) := by
  obtain ⟨n, h⟩ := hello_known_realm_attaches_then_welcomes sample_gen sample_unmarshal
    sample_busy_routers (sample_message .HELLO "realm1") 12 wamp_connection_base.unset
    sample_busy_router rfl (by decide) ⟨2, by decide⟩
  exact ⟨n, fun fuel hf => by
    obtain ⟨out, id, session, h1, h2, h3, h4, h5, _, h7, h8, h9, _⟩ := h fuel hf
    exact ⟨out, session, h1, h2 ▸ h3, h4, h2 ▸ h5, h7, h8, h9⟩⟩

/-- C4 at a concrete input: a CALL on a connection that carries session 1 of "realm1". -/
theorem forwards_to_router_of_connection_realm_witness :
    process_message sample_gen sample_unmarshal 1 sample_busy_routers
        (sample_message .CALL "") 7 sample_connection =
      some ⟨sample_connection, sample_busy_routers,
        [event.get_router "realm1",
         event.process_call_message "realm1" 1 (sample_message .CALL "")]⟩ :=
  (forwards_to_router_of_connection_realm sample_gen sample_unmarshal 1 sample_busy_routers
    (sample_message .CALL "") 7 sample_connection sample_busy_router (by decide)).1 rfl

/-- C5 at a concrete input: a GOODBYE on a connection that carries session 1 of "realm1". -/
theorem goodbye_detaches_then_clears_witness :
    ∃ out, process_message sample_gen sample_unmarshal 1 sample_busy_routers
        (sample_message .GOODBYE "") 7 sample_connection = some out ∧
      out.connection = wamp_connection_base.unset ∧
      out.trace =
        [event.get_router "realm1",
         event.process_goodbye_message "realm1" 1 (sample_message .GOODBYE ""),
         event.detach_session "realm1" 1,
         event.clear_data] ∧
      ∃ router', out.routers.get_router "realm1" = some router' ∧
        router'.has_session 1 = false := by
  obtain ⟨out, h1, h2, h3, _⟩ := goodbye_detaches_then_clears sample_gen sample_unmarshal 1
    sample_busy_routers (sample_message .GOODBYE "") 7 sample_connection rfl
  obtain ⟨h4, _, router', h5, h6, _⟩ := h3 sample_busy_router (by decide)
  exact ⟨out, h1, h2, h4, router', h5, h6⟩

/-- C8 at a concrete input: a PUBLISH on a connection whose realm "ghost" has no router. -/
theorem drops_when_no_router_resolves_witness :
    ∃ out, process_message sample_gen sample_unmarshal 1 sample_routers
        (sample_message .PUBLISH "") 7 ⟨"ghost", 5⟩ = some out ∧
      out.routers = sample_routers ∧
      ∀ e ∈ out.trace, e.is_send = false ∧ e.is_router_call = false := by
  obtain ⟨out, h1, h2, h3, _⟩ := drops_when_no_router_resolves sample_gen sample_unmarshal 1
    sample_routers (sample_message .PUBLISH "") 7 ⟨"ghost", 5⟩ (by decide) (by decide)
  exact ⟨out, h1, h2, h3⟩

/-- C9 at concrete inputs: an AUTHENTICATE and a WELCOME on a connection that carries a
session. -/
theorem ignores_reserved_and_unhandled_types_witness :
    process_message sample_gen sample_unmarshal 1 sample_busy_routers
        (sample_message .AUTHENTICATE "") 7 sample_connection =
      some ⟨sample_connection, sample_busy_routers, []⟩ ∧
    process_message sample_gen sample_unmarshal 1 sample_busy_routers
        (sample_message .WELCOME "") 7 sample_connection =
      some ⟨sample_connection, sample_busy_routers, []⟩ :=
  ⟨ignores_reserved_and_unhandled_types sample_gen sample_unmarshal 1 sample_busy_routers
      (sample_message .AUTHENTICATE "") 7 sample_connection (by decide),
    ignores_reserved_and_unhandled_types sample_gen sample_unmarshal 1 sample_busy_routers
      (sample_message .WELCOME "") 7 sample_connection (by decide)⟩

/-- C6 (amended) at a concrete input: a REGISTER on a connection before any handshake. -/
theorem pre_handshake_non_hello_sends_nothing_witness :
    ∃ out, process_message sample_gen sample_unmarshal 1 sample_routers
        (sample_message .REGISTER "") 7 wamp_connection_base.unset = some out ∧
      (∀ e ∈ out.trace, e.is_send = false) ∧
      out.connection = wamp_connection_base.unset ∧
      out.routers = sample_routers := by
  obtain ⟨out, h1, h2, h3, h4⟩ := pre_handshake_non_hello_sends_nothing sample_gen
    sample_unmarshal 1 sample_routers (sample_message .REGISTER "") 7 (by decide)
  exact ⟨out, h1, h2, h3, (h4 (by decide)).1⟩

/-- C7 (amended) at a concrete input: a HELLO naming "ghost" on a connection that carries
session 1 of "realm1". -/
theorem hello_unknown_realm_keeps_connection_witness :
    ∃ out, process_message sample_gen sample_unmarshal 1 sample_busy_routers
        (sample_message .HELLO "ghost") 7 sample_connection = some out ∧
      event.clear_data ∉ out.trace ∧
      out.connection.get_session_id = 1 ∧
      out.connection.get_realm = "realm1" := by
  obtain ⟨out, h1, _, h2, h3, h4, _⟩ := hello_unknown_realm_keeps_connection sample_gen
    sample_unmarshal 1 sample_busy_routers (sample_message .HELLO "ghost") 7 sample_connection
    rfl (by decide)
  exact ⟨out, h1, h2, h3, h4⟩

/-- C10 (amended) at a concrete input: a handshake, a call, a termination and a new
handshake on one connection. -/
theorem live_session_is_current_without_second_hello_witness :
    ∃ out, process_messages sample_unmarshal sample_routers wamp_connection_base.unset
        sample_deliveries = some out ∧
      ∀ p ∈ live_sessions out.trace,
        p.2.m_session_id = out.connection.get_session_id ∧
          p.2.m_realm = out.connection.get_realm := by
  have hrun : (process_messages sample_unmarshal sample_routers wamp_connection_base.unset
      sample_deliveries).isSome = true := by decide
  obtain ⟨out, hout⟩ := Option.isSome_iff_exists.1 hrun
  exact ⟨out, hout, (live_session_is_current_without_second_hello sample_unmarshal).1
    sample_routers wamp_connection_base.unset sample_deliveries out (by decide) hout⟩

end bonefish
